import Mathlib

/-!
Verification of the oiix-notam-watcher CLI adapter (src/wrapper.js).

The adapter reads `process.argv[2]`, and if that argument is falsy it
prints `JSON.stringify({error: "No input file provided"})` on standard
error and exits with status 1.  Otherwise it reads the file at that path
as UTF-8, passes the text to the external decode capability, serializes
the decoded value with `JSON.stringify` and prints it on standard output
(exit status 0).  Any failure thrown inside the try block (file read,
decode, or serialization) is caught and reported as
`JSON.stringify({error: e.toString()})` on standard error with exit
status 1.

We embed the adapter as a pure function over an explicit record of
capabilities (the filesystem read, the decode capability and JSON
serialization of the decoded value, each of which may fail with a
JavaScript error value), together with the process argument vector.  The
result is an `Outcome`: the ordered list of stream writes the process
performed, the exit status, and the ordered list of filesystem reads it
attempted.
-/

namespace NotamWatcher

/-- The two output streams the adapter can write to. -/
inductive StreamId where
  | out
  | err
deriving DecidableEq, Repr

/-- A JavaScript `Error`-like value: a `name` and a `message`.
`Error.prototype.toString` renders it as below (`JsError.render`). -/
structure JsError where
  name : String
  message : String
deriving DecidableEq, Repr

/-- Rendering per `Error.prototype.toString()` of ECMA-262: the empty
name yields the message, the empty message yields the name, otherwise
`name ++ ": " ++ message`. -/
def JsError.render (e : JsError) : String :=
  if e.name = "" then e.message
  else if e.message = "" then e.name
  else e.name ++ ": " ++ e.message

/-- Lower-case hexadecimal digit for `n < 16`. -/
def hexDigit (n : Nat) : Char :=
  if n < 10 then Char.ofNat (48 + n) else Char.ofNat (87 + n)

/-- Escaping of a single character inside a JSON string literal, per the
`QuoteJSONString` algorithm used by `JSON.stringify`. -/
def escapeChar (c : Char) : String :=
  if c = '"' then "\\\""
  else if c = '\\' then "\\\\"
  else if c.toNat = 8 then "\\b"
  else if c.toNat = 9 then "\\t"
  else if c.toNat = 10 then "\\n"
  else if c.toNat = 12 then "\\f"
  else if c.toNat = 13 then "\\r"
  else if c.toNat < 32 then
    "\\u00" ++ String.mk [hexDigit (c.toNat / 16), hexDigit (c.toNat % 16)]
  else String.singleton c

/-- A JSON string literal for `s`, per `JSON.stringify` on a string. -/
def jsonQuote (s : String) : String :=
  "\"" ++ String.join (s.data.map escapeChar) ++ "\""

/-- The result of `JSON.stringify({error: msg})`: the single-key error
envelope the adapter emits on every failure path. -/
def errorEnvelope (msg : String) : String :=
  "\x7b\"error\":" ++ jsonQuote msg ++ "\x7d"

/-- The external capabilities the adapter consumes.  `α` is the opaque
type of decoded results.
  * `readFile p` models `fs.readFileSync(p, 'utf8')`: the file content,
    or the thrown filesystem error.
  * `decode t` models `notamDecoder.decode(t)`: the decoded value, or
    the thrown decode error.
  * `stringify v` models `JSON.stringify(v)` on the decoded value: its
    JSON serialization, or the thrown serialization error (for instance
    on a circular structure). -/
structure Caps (α : Type) where
  readFile : String → Except JsError String
  decode : String → Except JsError α
  stringify : α → Except JsError String

/-- What one invocation of the adapter did: the ordered stream writes,
the exit status, and the ordered list of file paths read. -/
structure Outcome where
  writes : List (StreamId × String)
  exitCode : Nat
  reads : List String
deriving DecidableEq, Repr

/-- Everything the invocation wrote to the given stream, concatenated in
order. -/
def streamText (sid : StreamId) : List (StreamId × String) → String
  | [] => ""
  | (s, t) :: rest => (if s = sid then t else "") ++ streamText sid rest

/-- The bytes the invocation put on standard output. -/
def Outcome.stdout (o : Outcome) : String :=
  streamText StreamId.out o.writes

/-- The bytes the invocation put on standard error. -/
def Outcome.stderr (o : Outcome) : String :=
  streamText StreamId.err o.writes

/-- The effect of `console.log(s)`: one write of `s` plus a newline to
standard output. -/
def consoleLog (s : String) : StreamId × String :=
  (StreamId.out, s ++ "\n")

/-- The effect of `console.error(s)`: one write of `s` plus a newline to
standard error. -/
def consoleError (s : String) : StreamId × String :=
  (StreamId.err, s ++ "\n")

/-- The outcome of the missing-argument guard: the fixed error envelope
on standard error, exit status 1, no file access. -/
def missingOutcome : Outcome :=
  { writes := [consoleError (errorEnvelope "No input file provided")]
    exitCode := 1
    reads := [] }

/-- The outcome of the shared catch block after the file at `p` was
opened for reading and error `e` was thrown: the stringified error in
the envelope on standard error, exit status 1. -/
def failOutcome (p : String) (e : JsError) : Outcome :=
  { writes := [consoleError (errorEnvelope e.render)]
    exitCode := 1
    reads := [p] }

/-- The outcome of the success path: the serialized decoded value on
standard output, default exit status 0. -/
def successOutcome (p s : String) : Outcome :=
  { writes := [consoleLog s]
    exitCode := 0
    reads := [p] }

/-- The adapter, src/wrapper.js, as a function of the capabilities and
of `process.argv` (index 0 is the interpreter, index 1 the script, index
2 the input path).  `if (!inputPath)` is true when `process.argv[2]` is
absent (`undefined`) or is the empty string, the two falsy cases. -/
def run {α : Type} (caps : Caps α) (argv : List String) : Outcome :=
  match argv[2]? with
  | none => missingOutcome
  | some inputPath =>
    if inputPath = "" then missingOutcome
    else
      match caps.readFile inputPath with
      | .error e => failOutcome inputPath e
      | .ok rawNotam =>
        match caps.decode rawNotam with
        | .error e => failOutcome inputPath e
        | .ok decoded =>
          match caps.stringify decoded with
          | .error e => failOutcome inputPath e
          | .ok s => successOutcome inputPath s

/-- A small concrete capability record used to exercise the theorems on
explicit inputs.  The file system knows three files; the decoder accepts
two texts; serialization fails on the decoded value 9 (standing for a
circular structure). -/
def demoCaps : Caps Nat :=
  { readFile := fun p =>
      if p = "in.txt" then .ok "RAW"
      else if p = "loop.txt" then .ok "LOOP"
      else if p = "bad.txt" then .ok "XYZ"
      else .error ⟨"Error", "ENOENT: no such file or directory"⟩
    decode := fun t =>
      if t = "RAW" then .ok 7
      else if t = "LOOP" then .ok 9
      else .error ⟨"Error", "Invalid NOTAM format"⟩
    stringify := fun n =>
      if n = 9 then .error ⟨"TypeError", "Converting circular structure to JSON"⟩
      else .ok (Nat.repr n) }

/-- Appending a newline leaves a string nonempty. -/
theorem append_newline_ne_empty (s : String) : s ++ "\n" ≠ "" := by
  intro h
  have hlen : (s ++ "\n").length = 0 := by rw [h]; rfl
  rw [String.length_append] at hlen
  have hone : ("\n" : String).length = 1 := rfl
  rw [hone] at hlen
  omega

/-- Run equation: no third argument at all. -/
theorem run_none {α : Type} (caps : Caps α) (argv : List String)
    (h : argv[2]? = none) : run caps argv = missingOutcome := by
  unfold run; rw [h]

/-- Run equation: the third argument is the empty string. -/
theorem run_emptyArg {α : Type} (caps : Caps α) (argv : List String)
    (h : argv[2]? = some "") : run caps argv = missingOutcome := by
  unfold run; rw [h]; rfl

/-- Run equation: the file read throws. -/
theorem run_readFail {α : Type} (caps : Caps α) (argv : List String)
    (p : String) (e : JsError)
    (hp : argv[2]? = some p) (hne : p ≠ "")
    (hr : caps.readFile p = .error e) :
    run caps argv = failOutcome p e := by
  unfold run; rw [hp]; simp [hne, hr]

/-- Run equation: the read succeeds and decode throws. -/
theorem run_decodeFail {α : Type} (caps : Caps α) (argv : List String)
    (p t : String) (e : JsError)
    (hp : argv[2]? = some p) (hne : p ≠ "")
    (hr : caps.readFile p = .ok t) (hd : caps.decode t = .error e) :
    run caps argv = failOutcome p e := by
  unfold run; rw [hp]; simp [hne, hr, hd]

/-- Run equation: read and decode succeed and serialization throws. -/
theorem run_stringifyFail {α : Type} (caps : Caps α) (argv : List String)
    (p t : String) (v : α) (e : JsError)
    (hp : argv[2]? = some p) (hne : p ≠ "")
    (hr : caps.readFile p = .ok t) (hd : caps.decode t = .ok v)
    (hs : caps.stringify v = .error e) :
    run caps argv = failOutcome p e := by
  unfold run; rw [hp]; simp [hne, hr, hd, hs]

/-- Run equation: the whole pipeline succeeds. -/
theorem run_success {α : Type} (caps : Caps α) (argv : List String)
    (p t : String) (v : α) (s : String)
    (hp : argv[2]? = some p) (hne : p ≠ "")
    (hr : caps.readFile p = .ok t) (hd : caps.decode t = .ok v)
    (hs : caps.stringify v = .ok s) :
    run caps argv = successOutcome p s := by
  unfold run; rw [hp]; simp [hne, hr, hd, hs]

/-- Every run is the missing-argument outcome, a caught-failure outcome,
or the success outcome; in the latter two cases the path read is the
third argument. -/
theorem run_shape {α : Type} (caps : Caps α) (argv : List String) :
    run caps argv = missingOutcome ∨
    (∃ p e, argv[2]? = some p ∧ run caps argv = failOutcome p e) ∨
    (∃ p s, argv[2]? = some p ∧ run caps argv = successOutcome p s) := by
  rcases h2 : argv[2]? with _ | p
  · exact Or.inl (run_none caps argv h2)
  · by_cases hp : p = ""
    · subst hp
      exact Or.inl (run_emptyArg caps argv h2)
    · rcases hr : caps.readFile p with e | raw
      · exact Or.inr (Or.inl ⟨p, e, rfl, run_readFail caps argv p e h2 hp hr⟩)
      · rcases hd : caps.decode raw with e | v
        · exact Or.inr (Or.inl ⟨p, e, rfl, run_decodeFail caps argv p raw e h2 hp hr hd⟩)
        · rcases hs : caps.stringify v with e | s
          · exact Or.inr (Or.inl ⟨p, e, rfl,
              run_stringifyFail caps argv p raw v e h2 hp hr hd hs⟩)
          · exact Or.inr (Or.inr ⟨p, s, rfl,
              run_success caps argv p raw v s h2 hp hr hd hs⟩)

/-- Stream contents of the missing-argument outcome. -/
theorem missingOutcome_streams :
    missingOutcome.stdout = "" ∧
    missingOutcome.stderr = errorEnvelope "No input file provided" ++ "\n" := by
  constructor <;> rfl

/-- Stream contents of a caught-failure outcome. -/
theorem failOutcome_streams (p : String) (e : JsError) :
    (failOutcome p e).stdout = "" ∧
    (failOutcome p e).stderr = errorEnvelope e.render ++ "\n" := by
  constructor <;>
    simp [failOutcome, Outcome.stdout, Outcome.stderr, streamText, consoleError,
      String.append_empty]

/-- Stream contents of the success outcome. -/
theorem successOutcome_streams (p s : String) :
    (successOutcome p s).stdout = s ++ "\n" ∧
    (successOutcome p s).stderr = "" := by
  constructor <;>
    simp [successOutcome, Outcome.stdout, Outcome.stderr, streamText, consoleLog,
      String.append_empty]

/-- Claim C1: if no path argument is supplied (`process.argv[2]` is
absent), the adapter writes exactly the JSON object
`\x7b"error":"No input file provided"\x7d` followed by a newline to standard
error, writes nothing to standard output, attempts no file access, and
terminates with exit status 1. -/
theorem noArg_outcome {α : Type} (caps : Caps α) (argv : List String)
    (h : argv[2]? = none) :
    (run caps argv).stderr = "\x7b\"error\":\"No input file provided\"\x7d\n" ∧
    (run caps argv).stdout = "" ∧
    (run caps argv).reads = [] ∧
    (run caps argv).exitCode = 1 := by
  rw [run_none caps argv h]
  refine ⟨by decide, by decide, rfl, rfl⟩

/-- Witness for C1: invoking with only the interpreter and script
arguments produces the fixed error envelope and exit status 1. -/
theorem noArg_outcome_witness :
    (run demoCaps ["node", "wrapper.js"]).stderr =
        "\x7b\"error\":\"No input file provided\"\x7d\n" ∧
    (run demoCaps ["node", "wrapper.js"]).stdout = "" ∧
    (run demoCaps ["node", "wrapper.js"]).reads = [] ∧
    (run demoCaps ["node", "wrapper.js"]).exitCode = 1 :=
  noArg_outcome demoCaps ["node", "wrapper.js"] rfl

/-- Claim C9: a present but empty path argument is treated exactly like
the missing-argument case, because `if (!inputPath)` tests truthiness
and the empty string is falsy: the fixed envelope goes to standard
error, status is 1, and no file access is attempted. -/
theorem emptyPath_outcome {α : Type} (caps : Caps α) (a b : String)
    (rest : List String) :
    run caps (a :: b :: "" :: rest) = missingOutcome ∧
    (run caps (a :: b :: "" :: rest)).stderr =
        "\x7b\"error\":\"No input file provided\"\x7d\n" ∧
    (run caps (a :: b :: "" :: rest)).stdout = "" ∧
    (run caps (a :: b :: "" :: rest)).reads = [] ∧
    (run caps (a :: b :: "" :: rest)).exitCode = 1 := by
  have hrun : run caps (a :: b :: "" :: rest) = missingOutcome :=
    run_emptyArg caps (a :: b :: "" :: rest) (by simp)
  rw [hrun]
  exact ⟨rfl, by decide, by decide, rfl, rfl⟩

/-- The rendered form of a JavaScript error always contains its message
as a contiguous substring. -/
theorem message_infix_render (e : JsError) :
    ∃ pre post, e.render = pre ++ e.message ++ post := by
  unfold JsError.render
  by_cases hn : e.name = ""
  · exact ⟨"", "", by simp [hn]⟩
  · by_cases hm : e.message = ""
    · exact ⟨e.name, "", by simp [hn, hm]⟩
    · exact ⟨e.name ++ ": ", "", by simp [hn, hm]⟩

/-- Claim C2: when the path argument names a readable file with text `t`
and decode maps `t` to `v`, the adapter writes exactly the JSON
serialization of `v` followed by a newline to standard output, nothing
to standard error, and exits with status 0. -/
theorem success_output {α : Type} (caps : Caps α) (argv : List String)
    (p t : String) (v : α) (s : String)
    (hp : argv[2]? = some p) (hne : p ≠ "")
    (hr : caps.readFile p = .ok t) (hd : caps.decode t = .ok v)
    (hs : caps.stringify v = .ok s) :
    (run caps argv).stdout = s ++ "\n" ∧
    (run caps argv).stderr = "" ∧
    (run caps argv).exitCode = 0 := by
  rw [run_success caps argv p t v s hp hne hr hd hs]
  exact ⟨(successOutcome_streams p s).1, (successOutcome_streams p s).2, rfl⟩

/-- Witness for C2: the demo capabilities decode the file in.txt to 7
and the adapter prints its serialization. -/
theorem success_output_witness :
    (run demoCaps ["node", "wrapper.js", "in.txt"]).stdout = "7" ++ "\n" ∧
    (run demoCaps ["node", "wrapper.js", "in.txt"]).stderr = "" ∧
    (run demoCaps ["node", "wrapper.js", "in.txt"]).exitCode = 0 :=
  success_output demoCaps ["node", "wrapper.js", "in.txt"] "in.txt" "RAW" 7 "7"
    rfl (by decide) rfl rfl rfl

/-- Claim C3: when the file read throws error `e`, the adapter writes
the error envelope carrying the failure's string representation,
followed by a newline, to standard error, nothing to standard output,
and exits with status 1. -/
theorem readFail_output {α : Type} (caps : Caps α) (argv : List String)
    (p : String) (e : JsError)
    (hp : argv[2]? = some p) (hne : p ≠ "")
    (hr : caps.readFile p = .error e) :
    (run caps argv).stderr = errorEnvelope e.render ++ "\n" ∧
    (run caps argv).stdout = "" ∧
    (run caps argv).exitCode = 1 := by
  rw [run_readFail caps argv p e hp hne hr]
  exact ⟨(failOutcome_streams p e).2, (failOutcome_streams p e).1, rfl⟩

/-- Witness for C3: the demo filesystem has no file missing.txt, and the
adapter reports the filesystem error in the envelope. -/
theorem readFail_output_witness :
    (run demoCaps ["node", "wrapper.js", "missing.txt"]).stderr =
      errorEnvelope (JsError.render
        ⟨"Error", "ENOENT: no such file or directory"⟩) ++ "\n" ∧
    (run demoCaps ["node", "wrapper.js", "missing.txt"]).stdout = "" ∧
    (run demoCaps ["node", "wrapper.js", "missing.txt"]).exitCode = 1 :=
  readFail_output demoCaps ["node", "wrapper.js", "missing.txt"] "missing.txt"
    ⟨"Error", "ENOENT: no such file or directory"⟩ rfl (by decide) rfl

/-- Claim C4: when the read succeeds but decode throws error `e` with
message `e.message`, the adapter writes the envelope carrying the
failure's string representation — which contains `e.message` as a
substring — to standard error, nothing to standard output, and exits
with status 1. -/
theorem decodeFail_output {α : Type} (caps : Caps α) (argv : List String)
    (p t : String) (e : JsError)
    (hp : argv[2]? = some p) (hne : p ≠ "")
    (hr : caps.readFile p = .ok t) (hd : caps.decode t = .error e) :
    (run caps argv).stderr = errorEnvelope e.render ++ "\n" ∧
    (∃ pre post, e.render = pre ++ e.message ++ post) ∧
    (run caps argv).stdout = "" ∧
    (run caps argv).exitCode = 1 := by
  rw [run_decodeFail caps argv p t e hp hne hr hd]
  exact ⟨(failOutcome_streams p e).2, message_infix_render e,
    (failOutcome_streams p e).1, rfl⟩

/-- Witness for C4: the demo decoder rejects the content of bad.txt and
the adapter reports the decode error in the envelope. -/
theorem decodeFail_output_witness :
    (run demoCaps ["node", "wrapper.js", "bad.txt"]).stderr =
      errorEnvelope (JsError.render ⟨"Error", "Invalid NOTAM format"⟩) ++ "\n" ∧
    (∃ pre post, JsError.render ⟨"Error", "Invalid NOTAM format"⟩ =
      pre ++ "Invalid NOTAM format" ++ post) ∧
    (run demoCaps ["node", "wrapper.js", "bad.txt"]).stdout = "" ∧
    (run demoCaps ["node", "wrapper.js", "bad.txt"]).exitCode = 1 :=
  decodeFail_output demoCaps ["node", "wrapper.js", "bad.txt"] "bad.txt" "XYZ"
    ⟨"Error", "Invalid NOTAM format"⟩ rfl (by decide) rfl rfl

/-- Claim C10: when read and decode succeed but serializing the decoded
value throws (for instance a circular structure), the adapter follows
the shared failure path: the envelope goes to standard error, standard
output stays empty, and the exit status is 1. -/
theorem stringifyFail_output {α : Type} (caps : Caps α) (argv : List String)
    (p t : String) (v : α) (e : JsError)
    (hp : argv[2]? = some p) (hne : p ≠ "")
    (hr : caps.readFile p = .ok t) (hd : caps.decode t = .ok v)
    (hs : caps.stringify v = .error e) :
    (run caps argv).stderr = errorEnvelope e.render ++ "\n" ∧
    (run caps argv).stdout = "" ∧
    (run caps argv).exitCode = 1 := by
  rw [run_stringifyFail caps argv p t v e hp hne hr hd hs]
  exact ⟨(failOutcome_streams p e).2, (failOutcome_streams p e).1, rfl⟩

/-- Witness for C10: the demo capabilities decode loop.txt to the value
whose serialization throws, and the adapter reports the serialization
error in the envelope. -/
theorem stringifyFail_output_witness :
    (run demoCaps ["node", "wrapper.js", "loop.txt"]).stderr =
      errorEnvelope (JsError.render
        ⟨"TypeError", "Converting circular structure to JSON"⟩) ++ "\n" ∧
    (run demoCaps ["node", "wrapper.js", "loop.txt"]).stdout = "" ∧
    (run demoCaps ["node", "wrapper.js", "loop.txt"]).exitCode = 1 :=
  stringifyFail_output demoCaps ["node", "wrapper.js", "loop.txt"] "loop.txt"
    "LOOP" 9 ⟨"TypeError", "Converting circular structure to JSON"⟩
    rfl (by decide) rfl rfl rfl

/-- Claim C5: on every invocation exactly one of standard output and
standard error is nonempty — never both, never neither — and exactly
one write is performed before termination. -/
theorem exclusive_single_write {α : Type} (caps : Caps α) (argv : List String) :
    (((run caps argv).stdout = "" ∧ (run caps argv).stderr ≠ "") ∨
     ((run caps argv).stdout ≠ "" ∧ (run caps argv).stderr = "")) ∧
    (run caps argv).writes.length = 1 := by
  rcases run_shape caps argv with h | ⟨p, e, _, h⟩ | ⟨p, s, _, h⟩ <;> rw [h]
  · refine ⟨Or.inl ⟨missingOutcome_streams.1, ?_⟩, rfl⟩
    rw [missingOutcome_streams.2]
    exact append_newline_ne_empty _
  · refine ⟨Or.inl ⟨(failOutcome_streams p e).1, ?_⟩, rfl⟩
    rw [(failOutcome_streams p e).2]
    exact append_newline_ne_empty _
  · refine ⟨Or.inr ⟨?_, (successOutcome_streams p s).2⟩, rfl⟩
    rw [(successOutcome_streams p s).1]
    exact append_newline_ne_empty _

/-- Claim C6: every failure is caught and reported as the uniform error
envelope: each invocation either exits 0 with an empty standard error,
or exits 1 with an empty standard output and a standard error that is
exactly one envelope line; no other exit status occurs. -/
theorem uniform_error_envelope {α : Type} (caps : Caps α) (argv : List String) :
    ((run caps argv).exitCode = 0 ∧ (run caps argv).stderr = "") ∨
    ((run caps argv).exitCode = 1 ∧ (run caps argv).stdout = "" ∧
     ∃ m, (run caps argv).stderr = errorEnvelope m ++ "\n") := by
  rcases run_shape caps argv with h | ⟨p, e, _, h⟩ | ⟨p, s, _, h⟩ <;> rw [h]
  · exact Or.inr ⟨rfl, missingOutcome_streams.1,
      "No input file provided", missingOutcome_streams.2⟩
  · exact Or.inr ⟨rfl, (failOutcome_streams p e).1,
      e.render, (failOutcome_streams p e).2⟩
  · exact Or.inl ⟨rfl, (successOutcome_streams p s).2⟩

/-- Claim C7: two invocations with the same argument vector, the same
file contents at the input path (the filesystems may differ elsewhere),
and pure decode and serialization capabilities behaving the same in
both runs produce byte-identical standard output, byte-identical
standard error, and the same exit status. -/
theorem two_run_deterministic {α : Type} (caps caps2 : Caps α)
    (argv argv2 : List String)
    (ha : argv = argv2)
    (hrf : ∀ p, argv[2]? = some p → caps.readFile p = caps2.readFile p)
    (hdc : ∀ t, caps.decode t = caps2.decode t)
    (hst : ∀ v, caps.stringify v = caps2.stringify v) :
    (run caps argv).stdout = (run caps2 argv2).stdout ∧
    (run caps argv).stderr = (run caps2 argv2).stderr ∧
    (run caps argv).exitCode = (run caps2 argv2).exitCode := by
  subst ha
  have key : run caps argv = run caps2 argv := by
    rcases h2 : argv[2]? with _ | p
    · rw [run_none caps argv h2, run_none caps2 argv h2]
    · by_cases hp : p = ""
      · subst hp
        rw [run_emptyArg caps argv h2, run_emptyArg caps2 argv h2]
      · have hr := hrf p h2
        rcases hre : caps2.readFile p with e | raw
        · rw [run_readFail caps argv p e h2 hp (hr.trans hre),
              run_readFail caps2 argv p e h2 hp hre]
        · rcases hde : caps2.decode raw with e | v
          · rw [run_decodeFail caps argv p raw e h2 hp (hr.trans hre)
                  ((hdc raw).trans hde),
                run_decodeFail caps2 argv p raw e h2 hp hre hde]
          · rcases hse : caps2.stringify v with e | s
            · rw [run_stringifyFail caps argv p raw v e h2 hp (hr.trans hre)
                    ((hdc raw).trans hde) ((hst v).trans hse),
                  run_stringifyFail caps2 argv p raw v e h2 hp hre hde hse]
            · rw [run_success caps argv p raw v s h2 hp (hr.trans hre)
                    ((hdc raw).trans hde) ((hst v).trans hse),
                  run_success caps2 argv p raw v s h2 hp hre hde hse]
  rw [key]
  exact ⟨rfl, rfl, rfl⟩

/-- A second demo capability record, syntactically different from
`demoCaps` but pointwise equal to it. -/
def demoCaps2 : Caps Nat :=
  { readFile := fun p =>
      if p = "in.txt" then .ok "RAW"
      else if p = "loop.txt" then .ok "LOOP"
      else if p = "bad.txt" then .ok "XYZ"
      else .error ⟨"Error", "ENOENT: no such file or directory"⟩
    decode := fun t =>
      if t = "RAW" then .ok 7
      else if t = "LOOP" then .ok 9
      else .error ⟨"Error", "Invalid NOTAM format"⟩
    stringify := fun n =>
      if n = 9 then .error ⟨"TypeError", "Converting circular structure to JSON"⟩
      else .ok (toString n) }

/-- Witness for C7: the two pointwise-equal demo capability records give
identical observable behavior on the same invocation. -/
theorem two_run_deterministic_witness :
    (run demoCaps ["node", "wrapper.js", "in.txt"]).stdout =
      (run demoCaps2 ["node", "wrapper.js", "in.txt"]).stdout ∧
    (run demoCaps ["node", "wrapper.js", "in.txt"]).stderr =
      (run demoCaps2 ["node", "wrapper.js", "in.txt"]).stderr ∧
    (run demoCaps ["node", "wrapper.js", "in.txt"]).exitCode =
      (run demoCaps2 ["node", "wrapper.js", "in.txt"]).exitCode :=
  two_run_deterministic demoCaps demoCaps2
    ["node", "wrapper.js", "in.txt"] ["node", "wrapper.js", "in.txt"]
    rfl (fun _ _ => rfl) (fun _ => rfl) (fun _ => rfl)

/-- Claim C8: each invocation performs at most one filesystem read, and
only when a path argument was supplied (the path read is that argument);
the only writes are a single write to one stream. -/
theorem frame_single_read {α : Type} (caps : Caps α) (argv : List String) :
    (run caps argv).reads.length ≤ 1 ∧
    ((run caps argv).reads = [] ∨
      ∃ p, argv[2]? = some p ∧ (run caps argv).reads = [p]) ∧
    (run caps argv).writes.length = 1 := by
  rcases run_shape caps argv with h | ⟨p, e, hp, h⟩ | ⟨p, s, hp, h⟩ <;> rw [h]
  · exact ⟨by decide, Or.inl rfl, rfl⟩
  · exact ⟨Nat.le_refl 1, Or.inr ⟨p, hp, rfl⟩, rfl⟩
  · exact ⟨Nat.le_refl 1, Or.inr ⟨p, hp, rfl⟩, rfl⟩

end NotamWatcher
